import Mathlib

/-!
Shallow embedding of the Api-mybuddies content-management backend
(`src/server.js`, `src/routes/api.js`, `src/routes/admin.js`, and the
database-initialization module), together with theorems checking the
natural-language specification against it.

Conventions used throughout:
* machine rows are Lean structures; database tables are Lean lists;
* each HTTP handler becomes a pure Lean function from the database state
  and the request parameters to the response value it serializes;
* JavaScript truthiness of an optional string parameter (`undefined` or
  `''` are falsy) is modelled by `jsFalsy`; the `x || null` idiom by
  `jsOrNull` / `jsOrNullNat`; `Math.ceil(a / b)` by `jsMathCeilDiv`
  (exact rational ceiling, which agrees with IEEE doubles on the integer
  ranges involved);
* the MySQL `LIKE '%q%'` match under the default case-insensitive
  collation is modelled by `likeContains`;
* `ORDER BY created_at DESC` is modelled by a stable sort (`sortBy`) on
  the `created_at` field, `LIMIT ? OFFSET ?` by `pageSlice`.
-/

/-- ASCII lowercasing of one character, used to model MySQL's
case-insensitive collation. -/
def charLower (c : Char) : Char :=
  if 'A' ≤ c ∧ c ≤ 'Z' then Char.ofNat (c.toNat + 32) else c

/-- Lowercased character list of a string, used to model MySQL's
case-insensitive collation. -/
def strChars (s : String) : List Char := s.toList.map charLower

/-- `charsPre needle hay` is true when `needle` occurs at the start of `hay`. -/
def charsPre : List Char → List Char → Bool
  | [], _ => true
  | _ :: _, [] => false
  | a :: as, b :: bs => a == b && charsPre as bs

/-- `charsSub needle hay` is true when `needle` occurs contiguously anywhere
inside `hay`. -/
def charsSub (needle : List Char) : List Char → Bool
  | [] => charsPre needle []
  | b :: bs => charsPre needle (b :: bs) || charsSub needle bs

/-- MySQL `col LIKE '%pat%'` under the default case-insensitive collation:
case-insensitive substring containment. -/
def likeContains (hay pat : String) : Bool :=
  charsSub (strChars pat) (strChars hay)

/-- JavaScript truthiness test for an optional string query/body parameter:
`undefined` (here `none`) and the empty string are falsy. -/
def jsFalsy : Option String → Bool
  | none => true
  | some s => s == ""

/-- The JavaScript `v || null` idiom on an optional string: absent or empty
values become SQL NULL. -/
def jsOrNull : Option String → Option String
  | none => none
  | some s => if s == "" then none else some s

/-- The JavaScript `v || null` idiom on an optional numeric field: absent or
zero values become SQL NULL. -/
def jsOrNullNat : Option Nat → Option Nat
  | none => none
  | some n => if n == 0 then none else some n

/-- JavaScript `Math.ceil(a / b)` on the nonnegative integers the handlers
feed it: the exact rational ceiling of `a / b`. -/
def jsMathCeilDiv (a b : Nat) : Nat := ⌈(a : ℚ) / (b : ℚ)⌉₊

/-- SQL `LIMIT limit OFFSET (page-1)*limit` applied to an ordered row list. -/
def pageSlice (l : List α) (page limit : Nat) : List α :=
  (l.drop ((page - 1) * limit)).take limit

/-! ## Data model (rows as the route handlers read and write them) -/

/-- A row of the `categories` table. -/
structure Category where
  id : Nat
  name : String
  description : Option String
  created_at : Nat
  deriving DecidableEq

/-- A row of the `materials` table as every route handler in
`src/routes/api.js` and `src/routes/admin.js` addresses it (the handlers
select, filter, insert and group by an `author` column). -/
structure Material where
  id : Nat
  title : String
  content : String
  author : Option String
  category_id : Option Nat
  image : Option String
  status : String
  created_at : Nat
  deriving DecidableEq

/-- A row of the `videos` table. -/
structure Video where
  id : Nat
  title : String
  description : String
  video_url : String
  thumbnail : Option String
  duration : Nat
  category_id : Option Nat
  status : String
  created_at : Nat
  deriving DecidableEq

/-! ## Schema column lists (from the `CREATE TABLE` statements run by
`initDatabase` in the database-initialization module) -/

/-- The columns the `CREATE TABLE IF NOT EXISTS materials` statement of
`initDatabase` defines, in source order. -/
def materialsTableColumns : List String :=
  ["id", "title", "content", "category_id", "image", "status",
   "created_at", "updated_at"]

/-- The column list of the `INSERT INTO materials` statement of the admin
create-material handler (`POST /materials` in `src/routes/admin.js`). -/
def adminInsertMaterialsColumns : List String :=
  ["title", "content", "author", "category_id", "image", "status"]

/-- The `materials` columns referenced by the public `GET /authors` handler
(`SELECT author, COUNT(*), MAX(created_at) ... WHERE author IS NOT NULL AND
author != '' AND status = 'published' GROUP BY author`). -/
def authorsQueryReferencedColumns : List String :=
  ["author", "created_at", "status"]

/-! ## Public read/search service (`src/routes/api.js`) -/

/-- Error body `{success:false, error}` serialized by the public routes. -/
structure ErrBody where
  success : Bool
  error : String
  deriving DecidableEq

/-- Result of a public detail endpoint: a row, or an HTTP error status with
its JSON body. -/
inductive ApiResp (α : Type) where
  | ok (data : α)
  | err (status : Nat) (body : ErrBody)
  deriving DecidableEq

/-- Pagination object of the public list endpoints. -/
structure Pagination where
  total : Nat
  page : Nat
  limit : Nat
  pages : Nat
  deriving DecidableEq

/-- Successful response envelope of a public list endpoint. -/
structure ListOk (α : Type) where
  success : Bool
  data : List α
  pagination : Pagination
  deriving DecidableEq

/-- Insert `x` into `l` before the first element `y` with `le x y`. -/
def insertOrd (le : α → α → Bool) (x : α) : List α → List α
  | [] => [x]
  | y :: ys => if le x y then x :: y :: ys else y :: insertOrd le x ys

/-- Stable insertion sort by `le`, modelling the row order an `ORDER BY`
clause produces (the order among equal keys is unspecified by SQL). -/
def sortBy (le : α → α → Bool) : List α → List α
  | [] => []
  | x :: xs => insertOrd le x (sortBy le xs)

/-- `ORDER BY m.created_at DESC`. -/
def sortMaterialsDesc (l : List Material) : List Material :=
  sortBy (fun a b => decide (b.created_at ≤ a.created_at)) l

/-- `ORDER BY v.created_at DESC`. -/
def sortVideosDesc (l : List Video) : List Video :=
  sortBy (fun a b => decide (b.created_at ≤ a.created_at)) l

theorem mem_insertOrd {le : α → α → Bool} {x y : α} {l : List α} :
    y ∈ insertOrd le x l ↔ y = x ∨ y ∈ l := by
  induction l with
  | nil => simp [insertOrd]
  | cons z zs ih =>
    by_cases h : le x z
    · simp [insertOrd, h, List.mem_cons]
    · simp only [insertOrd, h, Bool.false_eq_true, if_false, List.mem_cons, ih]
      tauto

theorem mem_sortBy {le : α → α → Bool} {y : α} {l : List α} :
    y ∈ sortBy le l ↔ y ∈ l := by
  induction l with
  | nil => simp [sortBy]
  | cons z zs ih => simp [sortBy, mem_insertOrd, ih, List.mem_cons]

/-- The WHERE clause of the row query built by `GET /materials`:
`m.status = 'published'` plus, when provided, `AND m.category_id = ?` and
`AND m.author LIKE ?` (with `'%author%'`). -/
def materialsRowPred (category : Option Nat) (author : Option String)
    (m : Material) : Bool :=
  m.status == "published"
  && (match category with
      | some c => m.category_id == some c
      | none => true)
  && (match author with
      | some a =>
        (match m.author with
         | some au => likeContains au a
         | none => false)
      | none => true)

/-- The WHERE clause of the count query built by `GET /materials`:
`status = "published"` plus, when provided, `AND category_id = ?` and
`AND author LIKE ?` (with the same `'%author%'` parameter). -/
def materialsCountPred (category : Option Nat) (author : Option String)
    (m : Material) : Bool :=
  m.status == "published"
  && (match category with
      | some c => m.category_id == some c
      | none => true)
  && (match author with
      | some a =>
        (match m.author with
         | some au => likeContains au a
         | none => false)
      | none => true)

/-- `GET /materials`: filter, order newest-first, slice the requested page,
and report `pagination = {total, page, limit, pages: Math.ceil(total/limit)}`
where `total` comes from the separately built count query. -/
def getMaterials (db : List Material) (page limit : Nat)
    (category : Option Nat) (author : Option String) : ListOk Material :=
  let rows := pageSlice (sortMaterialsDesc (db.filter (materialsRowPred category author))) page limit
  let total := (db.filter (materialsCountPred category author)).length
  { success := true
    data := rows
    pagination := ⟨total, page, limit, jsMathCeilDiv total limit⟩ }

/-- `GET /materials/:id`: select `WHERE m.id = ? AND m.status = 'published'`;
404 `{success:false, error:'Material not found'}` when no row matches. -/
def getMaterialById (db : List Material) (id : Nat) : ApiResp Material :=
  match db.filter (fun m => m.id == id && m.status == "published") with
  | [] => .err 404 ⟨false, "Material not found"⟩
  | m :: _ => .ok m

/-- `GET /materials/category/:categoryId`. -/
def getMaterialsByCategory (db : List Material) (categoryId : Nat)
    (page limit : Nat) : ListOk Material :=
  let rows := pageSlice
    (sortMaterialsDesc (db.filter
      (fun m => m.category_id == some categoryId && m.status == "published")))
    page limit
  let total := (db.filter
    (fun m => m.category_id == some categoryId && m.status == "published")).length
  { success := true
    data := rows
    pagination := ⟨total, page, limit, jsMathCeilDiv total limit⟩ }

/-- `GET /materials/author/:author` (`WHERE m.author LIKE '%author%' AND
m.status = 'published'`). -/
def getMaterialsByAuthor (db : List Material) (author : String)
    (page limit : Nat) : ListOk Material :=
  let pred := fun (m : Material) =>
    (match m.author with
     | some au => likeContains au author
     | none => false) && m.status == "published"
  let rows := pageSlice (sortMaterialsDesc (db.filter pred)) page limit
  let total := (db.filter pred).length
  { success := true
    data := rows
    pagination := ⟨total, page, limit, jsMathCeilDiv total limit⟩ }

/-- The WHERE clause of the row query built by `GET /videos`. -/
def videosRowPred (category : Option Nat) (v : Video) : Bool :=
  v.status == "published"
  && (match category with
      | some c => v.category_id == some c
      | none => true)

/-- The WHERE clause of the count query built by `GET /videos`. -/
def videosCountPred (category : Option Nat) (v : Video) : Bool :=
  v.status == "published"
  && (match category with
      | some c => v.category_id == some c
      | none => true)

/-- `GET /videos`. -/
def getVideos (db : List Video) (page limit : Nat)
    (category : Option Nat) : ListOk Video :=
  let rows := pageSlice (sortVideosDesc (db.filter (videosRowPred category))) page limit
  let total := (db.filter (videosCountPred category)).length
  { success := true
    data := rows
    pagination := ⟨total, page, limit, jsMathCeilDiv total limit⟩ }

/-- `GET /videos/:id`. -/
def getVideoById (db : List Video) (id : Nat) : ApiResp Video :=
  match db.filter (fun v => v.id == id && v.status == "published") with
  | [] => .err 404 ⟨false, "Video not found"⟩
  | v :: _ => .ok v

/-- `GET /videos/category/:categoryId`. -/
def getVideosByCategory (db : List Video) (categoryId : Nat)
    (page limit : Nat) : ListOk Video :=
  let pred := fun (v : Video) =>
    v.category_id == some categoryId && v.status == "published"
  let rows := pageSlice (sortVideosDesc (db.filter pred)) page limit
  let total := (db.filter pred).length
  { success := true
    data := rows
    pagination := ⟨total, page, limit, jsMathCeilDiv total limit⟩ }

/-- `GET /latest`: the `limit` most recent published materials and videos. -/
def getLatest (dbM : List Material) (dbV : List Video) (limit : Nat) :
    List Material × List Video :=
  ((sortMaterialsDesc (dbM.filter (fun m => m.status == "published"))).take limit,
   (sortVideosDesc (dbV.filter (fun v => v.status == "published"))).take limit)

/-! ## Search (`GET /search` in `src/routes/api.js`) -/

/-- Pagination object of the search response: the handler serializes only
`page` and `limit` (no `total`, no `pages`). -/
structure SearchPagination where
  page : Nat
  limit : Nat
  deriving DecidableEq

/-- The `results` object of the search response. -/
structure SearchData where
  materials : List Material
  videos : List Video
  deriving DecidableEq

/-- Successful search response envelope. -/
structure SearchOk where
  success : Bool
  data : SearchData
  query : String
  pagination : SearchPagination
  deriving DecidableEq

/-- Search response: 400 `{success:false, error}` when the query is falsy,
otherwise the envelope. -/
inductive SearchResp where
  | ok (r : SearchOk)
  | badRequest (body : ErrBody)
  deriving DecidableEq

/-- WHERE clause of the search materials query: published and the term occurs
(case-insensitively) in title, content or author, plus the optional
category filter. -/
def searchMatPred (q : String) (category : Option Nat) (m : Material) : Bool :=
  m.status == "published"
  && (likeContains m.title q || likeContains m.content q
      || (match m.author with
          | some a => likeContains a q
          | none => false))
  && (match category with
      | some c => m.category_id == some c
      | none => true)

/-- WHERE clause of the search videos query: published and the term occurs
(case-insensitively) in title or description, plus the optional category
filter. -/
def searchVidPred (q : String) (category : Option Nat) (v : Video) : Bool :=
  v.status == "published"
  && (likeContains v.title q || likeContains v.description q)
  && (match category with
      | some c => v.category_id == some c
      | none => true)

/-- `GET /search`. Besides the response, the second component counts the
`pool.execute` row queries the handler runs (one per content-type branch
taken), so that "no store query is executed" is expressible. The materials
branch runs when `!type || type === 'materials'`, the videos branch when
`!type || type === 'videos'`. -/
def search (dbM : List Material) (dbV : List Video) (q ty : Option String)
    (category : Option Nat) (page limit : Nat) : SearchResp × Nat :=
  if jsFalsy q then
    (.badRequest ⟨false, "Search query is required"⟩, 0)
  else
    let qs := q.getD ""
    let runM := jsFalsy ty || ty == some "materials"
    let runV := jsFalsy ty || ty == some "videos"
    let mats := if runM then
        pageSlice (sortMaterialsDesc (dbM.filter (searchMatPred qs category))) page limit
      else []
    let vids := if runV then
        pageSlice (sortVideosDesc (dbV.filter (searchVidPred qs category))) page limit
      else []
    (.ok ⟨true, ⟨mats, vids⟩, qs, ⟨page, limit⟩⟩,
     (if runM then 1 else 0) + (if runV then 1 else 0))

/-! ## Admin auth gate and CRUD (`src/routes/admin.js`)

`bcryptjs` and `jsonwebtoken` are external dependencies; they are modelled
at the level of their documented contracts: a bcrypt digest is an opaque
value determined by the hashed password and cost factor, with
`bcryptCompare` succeeding exactly on the hashed password; a signed token
is its claims plus expiry time plus the secret it was signed with, with
verification succeeding exactly when the secret matches and the token is
unexpired. -/

/-- Abstract bcrypt digest: determined by the hashed password and the cost
factor, never equal to (or convertible to) the plaintext string itself. -/
structure BcryptHash where
  hashedOf : String
  cost : Nat
  deriving DecidableEq

/-- `bcrypt.hash(password, cost)`. -/
def bcryptHash (password : String) (cost : Nat) : BcryptHash :=
  ⟨password, cost⟩

/-- `bcrypt.compare(candidate, digest)`. -/
def bcryptCompare (candidate : String) (h : BcryptHash) : Bool :=
  candidate == h.hashedOf

/-- A row of the `admins` table. -/
structure Admin where
  id : Nat
  email : String
  password : BcryptHash
  name : String
  deriving DecidableEq

/-- Claims carried by an issued token. -/
structure JwtPayload where
  id : Nat
  email : String
  deriving DecidableEq

/-- A signed token: its claims, its expiry instant, and the secret it was
signed with (standing for the signature). -/
structure SignedToken where
  payload : JwtPayload
  exp : Nat
  secret : String
  deriving DecidableEq

/-- `jwt.sign(payload, secret, {expiresIn})` at current time `now`. -/
def jwtSign (p : JwtPayload) (secret : String) (now validFor : Nat) :
    SignedToken :=
  ⟨p, now + validFor, secret⟩

/-- `jwt.verify(token, secret)` at current time `now`: succeeds exactly when
the signing secret matches the server's and the token is unexpired. -/
def jwtVerify (secret : String) (now : Nat) (t : SignedToken) :
    Option JwtPayload :=
  if t.secret == secret && decide (now < t.exp) then some t.payload else none

/-- Split a character list at every space, keeping empty pieces, as
JavaScript's `split(' ')` does. -/
def splitSpaceGo : List Char → List Char → List (List Char)
  | [], acc => [acc.reverse]
  | c :: cs, acc =>
    if c == ' ' then acc.reverse :: splitSpaceGo cs []
    else splitSpaceGo cs (c :: acc)

/-- JavaScript `s.split(' ')`. -/
def jsSplitSpace (s : String) : List String :=
  (splitSpaceGo s.toList []).map (fun cs => String.mk cs)

/-- `authHeader && authHeader.split(' ')[1]`: the token is the second
space-separated piece of the Authorization header; a missing header, a
missing piece, or an empty piece are all falsy. -/
def extractToken : Option String → Option String
  | none => none
  | some h =>
    match (jsSplitSpace h).get? 1 with
    | none => none
    | some t => if t == "" then none else some t

/-- Outcome of running a token-gated route: either the gate denies with an
HTTP status and error body, or the downstream handler's response. -/
inductive AuthOutcome (α : Type) where
  | denied (status : Nat) (error : String)
  | handled (a : α)
  deriving DecidableEq

/-- The `authenticateToken` middleware wrapped around a downstream handler.
`decode` stands for the parsing of the raw header token string into a signed
token (a malformed string parses to `none`, which `jwt.verify` reports as an
error). On success the claimed identity (`req.user`) is passed to the
handler. -/
def authenticateToken (decode : String → Option SignedToken)
    (secret : String) (now : Nat) (authHeader : Option String)
    (handler : JwtPayload → α) : AuthOutcome α :=
  match extractToken authHeader with
  | none => .denied 401 "Access token required"
  | some tok =>
    match decode tok with
    | none => .denied 403 "Invalid or expired token"
    | some st =>
      match jwtVerify secret now st with
      | none => .denied 403 "Invalid or expired token"
      | some user => .handled (handler user)

/-- Response of `POST /login`. -/
inductive LoginResp where
  | badRequest (error : String)
  | unauthorized (error : String)
  | success (token : SignedToken) (id : Nat) (email name : String)
  deriving DecidableEq

/-- `POST /login`: 400 when email or password is falsy; look up by email;
401 `Invalid email or password` when no row matches or bcrypt rejects;
otherwise issue a token signed with the server secret, expiring in 24
hours, carrying the admin's id and email. -/
def login (db : List Admin) (secret : String) (now : Nat)
    (email password : Option String) : LoginResp :=
  if jsFalsy email || jsFalsy password then
    .badRequest "Email and password are required"
  else
    let e := email.getD ""
    let p := password.getD ""
    match db.filter (fun a => a.email == e) with
    | [] => .unauthorized "Invalid email or password"
    | admin :: _ =>
      if bcryptCompare p admin.password then
        .success (jwtSign ⟨admin.id, admin.email⟩ secret now (24 * 60 * 60))
          admin.id admin.email admin.name
      else
        .unauthorized "Invalid email or password"

/-- Response of `POST /init`. -/
inductive InitResp where
  | alreadyPresent (message : String) (count : Nat)
  | created (adminId : Nat) (email tempPassword : String)
  deriving DecidableEq

/-- `POST /init`: probe `SELECT id FROM admins LIMIT 1`; when a row exists,
change nothing and report `{message, adminExists, count: existing.length}`
(the length of the one-row probe); otherwise insert one admin from the
configured default email/password, password hashed with bcrypt at cost 12,
and return the plaintext temporary password in the response. `newId` models
the AUTO_INCREMENT id assigned by the insert. -/
def initAdmin (db : List Admin) (cfgEmail cfgPassword : String)
    (newId : Nat) : List Admin × InitResp :=
  match db.take 1 with
  | [] =>
    (db ++ [⟨newId, cfgEmail, bcryptHash cfgPassword 12, "Administrator"⟩],
     .created newId cfgEmail cfgPassword)
  | probe => (db, .alreadyPresent "Admin already exists" probe.length)

/-- Body of a material create/update request as the handler destructures it
(`title`, `content`, `author`, `category_id`, `status`; a field absent from
the JSON body is `none`). -/
structure MatBody where
  title : Option String
  content : Option String
  author : Option String
  category_id : Option Nat
  status : Option String
  deriving DecidableEq

/-- `PUT /materials/:id`: build
`UPDATE materials SET title=?, content=?, author=?, category_id=?, status=?`
(appending `, image=?` only when a file was uploaded) with parameters
`[title, content, author || null, category_id || null, status || 'published']`.
When `title` or `content` is absent the bind parameter is `undefined`, which
the mysql2 driver rejects, so the statement never runs, the table is
unchanged, and the handler answers 500 (second component `false`).
`file` is the stored filename of the uploaded image, when one was sent. -/
def updateMaterial (db : List Material) (id : Nat) (body : MatBody)
    (file : Option String) : List Material × Bool :=
  match body.title, body.content with
  | some t, some c =>
    (db.map (fun m =>
      if m.id == id then
        { m with
          title := t
          content := c
          author := jsOrNull body.author
          category_id := jsOrNullNat body.category_id
          status := (jsOrNull body.status).getD "published"
          image := match file with
                   | some f => some ("/uploads/images/" ++ f)
                   | none => m.image }
      else m), true)
  | _, _ => (db, false)

/-- Full database state, used where the category FK's ON DELETE SET NULL
behaviour (declared in the schema) is observable. -/
structure Db where
  categories : List Category
  materials : List Material
  videos : List Video
  deriving DecidableEq

/-- `DELETE /materials/:id`: `DELETE FROM materials WHERE id = ?`, then the
success message with no existence check. -/
def deleteMaterial (db : List Material) (id : Nat) : List Material × String :=
  (db.filter (fun m => m.id != id), "Material deleted successfully")

/-- `DELETE /videos/:id`. -/
def deleteVideo (db : List Video) (id : Nat) : List Video × String :=
  (db.filter (fun v => v.id != id), "Video deleted successfully")

/-- `DELETE /categories/:id`: `DELETE FROM categories WHERE id = ?`; the
materials/videos FK is declared ON DELETE SET NULL in the schema, so
referencing rows survive with their `category_id` nulled. Success message
with no existence check. -/
def deleteCategory (db : Db) (id : Nat) : Db × String :=
  ({ categories := db.categories.filter (fun c => c.id != id)
     materials := db.materials.map (fun m =>
       if m.category_id == some id then { m with category_id := none } else m)
     videos := db.videos.map (fun v =>
       if v.category_id == some id then { v with category_id := none } else v) },
   "Category deleted successfully")

/-! ## Helper lemmas -/

theorem jsMathCeilDiv_eq (a b : Nat) (hb : 0 < b) :
    jsMathCeilDiv a b = (a + b - 1) / b := by
  unfold jsMathCeilDiv
  have hbq : (0 : ℚ) < (b : ℚ) := by exact_mod_cast hb
  have hA : ∀ c : ℕ, ⌈(a : ℚ) / (b : ℚ)⌉₊ ≤ c ↔ a ≤ c * b := by
    intro c
    rw [Nat.ceil_le, div_le_iff₀ hbq]
    exact_mod_cast Iff.rfl
  have hB : ∀ c : ℕ, (a + b - 1) / b ≤ c ↔ a ≤ c * b := by
    intro c
    rw [Nat.lt_succ_iff.symm, Nat.div_lt_iff_lt_mul hb, Nat.succ_mul]
    omega
  have h1 : ⌈(a : ℚ) / (b : ℚ)⌉₊ ≤ (a + b - 1) / b :=
    (hA _).mpr ((hB _).mp le_rfl)
  have h2 : (a + b - 1) / b ≤ ⌈(a : ℚ) / (b : ℚ)⌉₊ :=
    (hB _).mpr ((hA _).mp le_rfl)
  omega

theorem mem_of_mem_pageSlice {l : List α} {page limit : Nat} {x : α}
    (h : x ∈ pageSlice l page limit) : x ∈ l :=
  List.drop_subset _ _ (List.take_subset _ _ h)

theorem mat_status_of_mem_slice {db : List Material} {p : Material → Bool}
    (hp : ∀ m, p m = true → m.status = "published")
    {page limit : Nat} {m : Material}
    (h : m ∈ pageSlice (sortMaterialsDesc (db.filter p)) page limit) :
    m.status = "published" := by
  have h1 : m ∈ sortMaterialsDesc (db.filter p) := mem_of_mem_pageSlice h
  unfold sortMaterialsDesc at h1
  rw [mem_sortBy] at h1
  exact hp m (List.mem_filter.mp h1).2

theorem vid_status_of_mem_slice {db : List Video} {p : Video → Bool}
    (hp : ∀ v, p v = true → v.status = "published")
    {page limit : Nat} {v : Video}
    (h : v ∈ pageSlice (sortVideosDesc (db.filter p)) page limit) :
    v.status = "published" := by
  have h1 : v ∈ sortVideosDesc (db.filter p) := mem_of_mem_pageSlice h
  unfold sortVideosDesc at h1
  rw [mem_sortBy] at h1
  exact hp v (List.mem_filter.mp h1).2

theorem mat_status_of_mem_take {db : List Material} {p : Material → Bool}
    (hp : ∀ m, p m = true → m.status = "published")
    {n : Nat} {m : Material}
    (h : m ∈ (sortMaterialsDesc (db.filter p)).take n) :
    m.status = "published" := by
  have h1 : m ∈ sortMaterialsDesc (db.filter p) := List.take_subset _ _ h
  unfold sortMaterialsDesc at h1
  rw [mem_sortBy] at h1
  exact hp m (List.mem_filter.mp h1).2

theorem vid_status_of_mem_take {db : List Video} {p : Video → Bool}
    (hp : ∀ v, p v = true → v.status = "published")
    {n : Nat} {v : Video}
    (h : v ∈ (sortVideosDesc (db.filter p)).take n) :
    v.status = "published" := by
  have h1 : v ∈ sortVideosDesc (db.filter p) := List.take_subset _ _ h
  unfold sortVideosDesc at h1
  rw [mem_sortBy] at h1
  exact hp v (List.mem_filter.mp h1).2

theorem materialsRowPred_status {category : Option Nat} {author : Option String}
    {m : Material} (h : materialsRowPred category author m = true) :
    m.status = "published" := by
  unfold materialsRowPred at h
  simp only [Bool.and_eq_true, beq_iff_eq] at h
  exact h.1.1

theorem videosRowPred_status {category : Option Nat} {v : Video}
    (h : videosRowPred category v = true) : v.status = "published" := by
  unfold videosRowPred at h
  simp only [Bool.and_eq_true, beq_iff_eq] at h
  exact h.1

theorem searchMatPred_status {q : String} {category : Option Nat} {m : Material}
    (h : searchMatPred q category m = true) : m.status = "published" := by
  unfold searchMatPred at h
  simp only [Bool.and_eq_true, beq_iff_eq] at h
  exact h.1.1

theorem searchVidPred_status {q : String} {category : Option Nat} {v : Video}
    (h : searchVidPred q category v = true) : v.status = "published" := by
  unfold searchVidPred at h
  simp only [Bool.and_eq_true, beq_iff_eq] at h
  exact h.1.1

/-! ## Claim theorems -/

/-- C1: for the public paginated material and video listings, under any
combination of the optional category and (materials only) author filters
and any page/limit with page ≥ 1 and limit ≥ 1, the count query's filter
predicate is exactly the row query's filter predicate, the reported total
counts precisely the rows the row query ranges over, the reported `pages`
is `ceil(total / limit)` (the natural-number ceiling division), and the
returned rows are the slice at offset `(page-1)*limit` of length `limit`. -/
theorem c1_pagination_consistent (dbM : List Material) (dbV : List Video)
    (page limit : Nat) (category : Option Nat) (author : Option String)
    (hp : 1 ≤ page) (hl : 1 ≤ limit) :
    materialsCountPred category author = materialsRowPred category author
    ∧ videosCountPred category = videosRowPred category
    ∧ (getMaterials dbM page limit category author).pagination.total
        = (dbM.filter (materialsRowPred category author)).length
    ∧ (getMaterials dbM page limit category author).pagination.pages
        = ((getMaterials dbM page limit category author).pagination.total
            + limit - 1) / limit
    ∧ (getMaterials dbM page limit category author).data
        = ((sortMaterialsDesc (dbM.filter (materialsRowPred category author))).drop
            ((page - 1) * limit)).take limit
    ∧ (getVideos dbV page limit category).pagination.total
        = (dbV.filter (videosRowPred category)).length
    ∧ (getVideos dbV page limit category).pagination.pages
        = ((getVideos dbV page limit category).pagination.total
            + limit - 1) / limit
    ∧ (getVideos dbV page limit category).data
        = ((sortVideosDesc (dbV.filter (videosRowPred category))).drop
            ((page - 1) * limit)).take limit := by
  refine ⟨rfl, rfl, rfl, ?_, rfl, rfl, ?_, rfl⟩
  · exact jsMathCeilDiv_eq _ _ hl
  · exact jsMathCeilDiv_eq _ _ hl

/-- Twelve published materials, used to instantiate `c1_pagination_consistent`
on the spec's example scenario (page 2, limit 5). -/
def sampleMaterials : List Material :=
  (List.range 12).map (fun i =>
    { id := i + 1, title := "t", content := "c", author := none
      category_id := none, image := none, status := "published"
      created_at := i })

theorem c1_pagination_consistent_witness :
    1 ≤ 2 ∧ 1 ≤ 5
    ∧ (getMaterials sampleMaterials 2 5 none none).pagination.pages
        = ((getMaterials sampleMaterials 2 5 none none).pagination.total
            + 5 - 1) / 5 :=
  ⟨by decide, by decide,
    (c1_pagination_consistent sampleMaterials [] 2 5 none none
      (by decide) (by decide)).2.2.2.1⟩

/-- C2: across the public material/video list endpoints (listing, by
category, by author, latest, search) no row whose status is not
'published' ever appears in the response, and the detail endpoints return
404 `{success:false, error}` whenever the requested id is absent or its
row is not published (and any row they do return is published). -/
theorem c2_published_only (dbM : List Material) (dbV : List Video)
    (page limit catId limit2 mid vid : Nat) (category : Option Nat)
    (author q ty : Option String) (authName : String) :
    (∀ m ∈ (getMaterials dbM page limit category author).data,
        m.status = "published")
    ∧ (∀ m ∈ (getMaterialsByCategory dbM catId page limit).data,
        m.status = "published")
    ∧ (∀ m ∈ (getMaterialsByAuthor dbM authName page limit).data,
        m.status = "published")
    ∧ (∀ v ∈ (getVideos dbV page limit category).data, v.status = "published")
    ∧ (∀ v ∈ (getVideosByCategory dbV catId page limit).data,
        v.status = "published")
    ∧ (∀ m ∈ (getLatest dbM dbV limit2).1, m.status = "published")
    ∧ (∀ v ∈ (getLatest dbM dbV limit2).2, v.status = "published")
    ∧ (∀ r, (search dbM dbV q ty category page limit).1 = .ok r →
        (∀ m ∈ r.data.materials, m.status = "published")
        ∧ (∀ v ∈ r.data.videos, v.status = "published"))
    ∧ (∀ m, getMaterialById dbM mid = .ok m → m.status = "published")
    ∧ ((¬ ∃ m ∈ dbM, m.id = mid ∧ m.status = "published") →
        getMaterialById dbM mid = .err 404 ⟨false, "Material not found"⟩)
    ∧ (∀ v, getVideoById dbV vid = .ok v → v.status = "published")
    ∧ ((¬ ∃ v ∈ dbV, v.id = vid ∧ v.status = "published") →
        getVideoById dbV vid = .err 404 ⟨false, "Video not found"⟩) := by
  refine ⟨?_, ?_, ?_, ?_, ?_, ?_, ?_, ?_, ?_, ?_, ?_, ?_⟩
  · intro m hm
    exact mat_status_of_mem_slice (fun _ h => materialsRowPred_status h) hm
  · intro m hm
    refine mat_status_of_mem_slice (fun m h => ?_) hm
    simp only [Bool.and_eq_true, beq_iff_eq] at h
    exact h.2
  · intro m hm
    refine mat_status_of_mem_slice (fun m h => ?_) hm
    simp only [Bool.and_eq_true, beq_iff_eq] at h
    exact h.2
  · intro v hv
    exact vid_status_of_mem_slice (fun _ h => videosRowPred_status h) hv
  · intro v hv
    refine vid_status_of_mem_slice (fun v h => ?_) hv
    simp only [Bool.and_eq_true, beq_iff_eq] at h
    exact h.2
  · intro m hm
    exact mat_status_of_mem_take
      (fun m h => by simpa only [beq_iff_eq] using h) hm
  · intro v hv
    exact vid_status_of_mem_take
      (fun v h => by simpa only [beq_iff_eq] using h) hv
  · intro r hr
    unfold search at hr
    by_cases hq : jsFalsy q = true
    · simp only [hq, if_true] at hr
      exact absurd hr (by simp)
    · simp only [hq, Bool.false_eq_true, if_false] at hr
      injection hr with hr
      subst hr
      constructor
      · intro m hm
        simp only at hm
        split at hm
        · exact mat_status_of_mem_slice
            (fun _ h => searchMatPred_status h) hm
        · exact absurd hm (List.not_mem_nil m)
      · intro v hv
        simp only at hv
        split at hv
        · exact vid_status_of_mem_slice
            (fun _ h => searchVidPred_status h) hv
        · exact absurd hv (List.not_mem_nil v)
  · intro m hm
    unfold getMaterialById at hm
    cases hfe : dbM.filter (fun m => m.id == mid && m.status == "published") with
    | nil => rw [hfe] at hm; exact absurd hm (by simp)
    | cons x rest =>
      rw [hfe] at hm
      injection hm with hm
      subst hm
      have hx : x ∈ dbM.filter (fun m => m.id == mid && m.status == "published") :=
        hfe ▸ List.mem_cons_self x rest
      have := (List.mem_filter.mp hx).2
      simp only [Bool.and_eq_true, beq_iff_eq] at this
      exact this.2
  · intro hno
    unfold getMaterialById
    cases hfe : dbM.filter (fun m => m.id == mid && m.status == "published") with
    | nil => rfl
    | cons x rest =>
      exfalso
      have hx : x ∈ dbM.filter (fun m => m.id == mid && m.status == "published") :=
        hfe ▸ List.mem_cons_self x rest
      have h2 := List.mem_filter.mp hx
      simp only [Bool.and_eq_true, beq_iff_eq] at h2
      exact hno ⟨x, h2.1, h2.2.1, h2.2.2⟩
  · intro v hv
    unfold getVideoById at hv
    cases hfe : dbV.filter (fun v => v.id == vid && v.status == "published") with
    | nil => rw [hfe] at hv; exact absurd hv (by simp)
    | cons x rest =>
      rw [hfe] at hv
      injection hv with hv
      subst hv
      have hx : x ∈ dbV.filter (fun v => v.id == vid && v.status == "published") :=
        hfe ▸ List.mem_cons_self x rest
      have := (List.mem_filter.mp hx).2
      simp only [Bool.and_eq_true, beq_iff_eq] at this
      exact this.2
  · intro hno
    unfold getVideoById
    cases hfe : dbV.filter (fun v => v.id == vid && v.status == "published") with
    | nil => rfl
    | cons x rest =>
      exfalso
      have hx : x ∈ dbV.filter (fun v => v.id == vid && v.status == "published") :=
        hfe ▸ List.mem_cons_self x rest
      have h2 := List.mem_filter.mp hx
      simp only [Bool.and_eq_true, beq_iff_eq] at h2
      exact hno ⟨x, h2.1, h2.2.1, h2.2.2⟩

/-- A draft material, for instantiating the published-only theorem. -/
def draftMaterial : Material :=
  { id := 7, title := "hidden", content := "draft body", author := none
    category_id := none, image := none, status := "draft", created_at := 3 }

theorem c2_published_only_witness :
    (¬ ∃ m ∈ [draftMaterial], m.id = 7 ∧ m.status = "published")
    ∧ getMaterialById [draftMaterial] 7
        = .err 404 ⟨false, "Material not found"⟩ :=
  ⟨by decide,
    (c2_published_only [draftMaterial] [] 1 10 1 5 7 1 none none none none
      "a").2.2.2.2.2.2.2.2.2.1 (by decide)⟩

/-- C3: for any token-gated admin route, if the Authorization header yields
no bearer token the gate answers 401 and the downstream handler never runs
(the outcome is the same fixed denial for every handler); if a token is
present but fails verification (undecodable, wrong secret, or expired) the
gate answers 403 and the handler never runs; if the token verifies, the
claimed identity is handed to the downstream handler, whose response is
the outcome. -/
theorem c3_token_gate {α : Type} (decode : String → Option SignedToken)
    (secret : String) (now : Nat) (authHeader : Option String)
    (handler : JwtPayload → α) :
    (extractToken authHeader = none →
      authenticateToken decode secret now authHeader handler
        = .denied 401 "Access token required")
    ∧ (∀ tok, extractToken authHeader = some tok → decode tok = none →
      authenticateToken decode secret now authHeader handler
        = .denied 403 "Invalid or expired token")
    ∧ (∀ tok st, extractToken authHeader = some tok → decode tok = some st →
      jwtVerify secret now st = none →
      authenticateToken decode secret now authHeader handler
        = .denied 403 "Invalid or expired token")
    ∧ (∀ tok st user, extractToken authHeader = some tok →
      decode tok = some st → jwtVerify secret now st = some user →
      authenticateToken decode secret now authHeader handler
        = .handled (handler user)) := by
  refine ⟨?_, ?_, ?_, ?_⟩
  · intro h
    simp only [authenticateToken, h]
  · intro tok h1 h2
    simp only [authenticateToken, h1, h2]
  · intro tok st h1 h2 h3
    simp only [authenticateToken, h1, h2, h3]
  · intro tok st user h1 h2 h3
    simp only [authenticateToken, h1, h2, h3]

/-- An expired token signed with the right secret, for instantiating the
token-gate theorem: presented at time 100000 with expiry 50, verification
fails and the gate answers 403. -/
def staleToken : SignedToken := ⟨⟨1, "admin@breastcancer.com"⟩, 50, "s3cret"⟩

theorem c3_token_gate_witness :
    extractToken (some "Bearer stale") = some "stale"
    ∧ jwtVerify "s3cret" 100000 staleToken = none
    ∧ authenticateToken (fun _ => some staleToken) "s3cret" 100000
        (some "Bearer stale") (fun u => u.email)
        = .denied 403 "Invalid or expired token" :=
  ⟨by decide, by decide,
    (c3_token_gate (fun _ => some staleToken) "s3cret" 100000
      (some "Bearer stale") (fun u => u.email)).2.2.1 "stale" staleToken
      (by decide) rfl (by decide)⟩

/-- C4: login answers 400 when email or password is missing; a login whose
email matches no admin and a login with a matching email but a
bcrypt-rejected password produce the identical 401 response
`{error:'Invalid email or password'}`; a login with a matching email and
accepted password succeeds with a token signed with the server secret,
expiring 24 hours from now, carrying the admin's id and email as claims. -/
theorem c4_login_contract (db : List Admin) (secret : String) (now : Nat)
    (email password : Option String) :
    ((email = none ∨ password = none) →
      login db secret now email password
        = .badRequest "Email and password are required")
    ∧ (∀ e p, email = some e → password = some p → e ≠ "" → p ≠ "" →
        (db.filter (fun a => a.email == e) = [] →
          login db secret now email password
            = .unauthorized "Invalid email or password")
        ∧ (∀ a rest, db.filter (fun a => a.email == e) = a :: rest →
            bcryptCompare p a.password = false →
            login db secret now email password
              = .unauthorized "Invalid email or password")
        ∧ (∀ a rest, db.filter (fun a => a.email == e) = a :: rest →
            bcryptCompare p a.password = true →
            login db secret now email password
              = .success ⟨⟨a.id, a.email⟩, now + 24 * 60 * 60, secret⟩
                  a.id a.email a.name)) := by
  constructor
  · intro h
    cases h with
    | inl h => subst h; simp [login, jsFalsy]
    | inr h => subst h; simp [login, jsFalsy]
  · intro e p he hpw hne hnp
    subst he; subst hpw
    have he' : (e == "") = false := beq_eq_false_iff_ne.mpr hne
    have hp' : (p == "") = false := beq_eq_false_iff_ne.mpr hnp
    refine ⟨?_, ?_, ?_⟩
    · intro hempty
      simp [login, jsFalsy, he', hp', hempty]
    · intro a rest hfilter hcmp
      simp [login, jsFalsy, he', hp', hfilter, hcmp]
    · intro a rest hfilter hcmp
      simp [login, jsFalsy, he', hp', hfilter, hcmp, jwtSign]

/-- A stored admin whose password is the bcrypt hash of "admin123", for
instantiating the login theorem: a wrong password yields the invariant 401
body. -/
def sampleAdmin : Admin :=
  ⟨1, "admin@breastcancer.com", bcryptHash "admin123" 12, "Administrator"⟩

theorem c4_login_contract_witness :
    [sampleAdmin].filter (fun a => a.email == "admin@breastcancer.com")
      = sampleAdmin :: []
    ∧ bcryptCompare "wrong" sampleAdmin.password = false
    ∧ login [sampleAdmin] "s3cret" 1000
        (some "admin@breastcancer.com") (some "wrong")
        = .unauthorized "Invalid email or password" :=
  ⟨by decide, by decide,
    ((c4_login_contract [sampleAdmin] "s3cret" 1000
        (some "admin@breastcancer.com") (some "wrong")).2
      "admin@breastcancer.com" "wrong" rfl rfl (by decide) (by decide)).2.1
      sampleAdmin [] (by decide) (by decide)⟩

/-- C5 (amended): on a material update, the stored image path is replaced
if and only if a new file is uploaded in that request; when both title and
content are present in the body, the other editable columns are always
overwritten — author and category_id become NULL when omitted (or falsy),
status defaults to 'published' when omitted — and rows with a different id
are untouched; when title or content is omitted the bind parameter is
undefined, the statement is rejected by the driver, and nothing changes. -/
theorem c5_update_material_frame (db : List Material) (id : Nat)
    (body : MatBody) (file : Option String) :
    ((body.title = none ∨ body.content = none) →
      updateMaterial db id body file = (db, false))
    ∧ (∀ t c, body.title = some t → body.content = some c →
        (updateMaterial db id body file).2 = true
        ∧ (file = none →
            ((updateMaterial db id body file).1).map (fun m => m.image)
              = db.map (fun m => m.image))
        ∧ (∀ f, file = some f → ∀ m ∈ (updateMaterial db id body file).1,
            m.id = id → m.image = some ("/uploads/images/" ++ f))
        ∧ (∀ m ∈ (updateMaterial db id body file).1, m.id = id →
            m.title = t ∧ m.content = c ∧ m.author = jsOrNull body.author
            ∧ m.category_id = jsOrNullNat body.category_id
            ∧ m.status = (jsOrNull body.status).getD "published")
        ∧ (∀ m ∈ db, m.id ≠ id → m ∈ (updateMaterial db id body file).1)) := by
  constructor
  · intro h
    rcases h with h | h
    · simp [updateMaterial, h]
    · cases ht : body.title <;> simp [updateMaterial, h, ht]
  · intro t c ht hc
    refine ⟨?_, ?_, ?_, ?_, ?_⟩
    · simp [updateMaterial, ht, hc]
    · intro hf
      subst hf
      simp only [updateMaterial, ht, hc, List.map_map]
      refine List.map_congr_left (fun m _ => ?_)
      by_cases h : m.id = id <;> simp [h]
    · intro f hf m hm hid
      subst hf
      simp only [updateMaterial, ht, hc] at hm
      obtain ⟨m₀, hm₀, hupd⟩ := List.mem_map.mp hm
      by_cases h : m₀.id = id
      · subst hupd; simp [h]
      · subst hupd
        simp only [beq_iff_eq, h, if_false] at hid
    · intro m hm hid
      simp only [updateMaterial, ht, hc] at hm
      obtain ⟨m₀, hm₀, hupd⟩ := List.mem_map.mp hm
      by_cases h : m₀.id = id
      · subst hupd; simp [h]
      · subst hupd
        simp only [beq_iff_eq, h, if_false] at hid
    · intro m hm hid
      simp only [updateMaterial, ht, hc]
      refine List.mem_map.mpr ⟨m, hm, ?_⟩
      simp [hid]

/-- A stored material with every column populated, used to exhibit the
update behaviour on omitted body fields. -/
def legacyMaterial : Material :=
  { id := 1, title := "old title", content := "old content"
    author := some "Alice", category_id := some 2
    image := some "/uploads/images/old.jpg", status := "draft"
    created_at := 10 }

/-- C5 counterexample to the claim as stated: updating with `title` omitted
from the body does not write NULL into the title column (or any column) —
the statement fails and the row keeps all its old values; and updating with
`status` omitted writes 'published', not NULL. -/
theorem c5_claim_counterexample :
    updateMaterial [legacyMaterial] 1
      ⟨none, some "new content", none, none, none⟩ none
      = ([legacyMaterial], false)
    ∧ legacyMaterial.title = "old title"
    ∧ ((updateMaterial [legacyMaterial] 1
        ⟨some "t", some "c", none, none, none⟩ none).1.map (fun m => m.status))
      = ["published"] := by
  refine ⟨by decide, rfl, by decide⟩

theorem c5_update_material_frame_witness :
    (some "t" = some "t")
    ∧ (updateMaterial [legacyMaterial] 1
        ⟨some "t", some "c", none, none, none⟩ none).2 = true :=
  ⟨rfl,
    ((c5_update_material_frame [legacyMaterial] 1
      ⟨some "t", some "c", none, none, none⟩ none).2 "t" "c" rfl rfl).1⟩

/-- C6: the schema's `CREATE TABLE materials` statement never defines the
`author` column that the claim (and the rest of the code) requires: the
admin create-material INSERT and the public authors aggregate both
reference `author`, a column absent from the created table, so those
statements fail against the initialized schema. -/
theorem c6_schema_missing_author :
    "author" ∉ materialsTableColumns
    ∧ "author" ∈ adminInsertMaterialsColumns
    ∧ "author" ∈ authorsQueryReferencedColumns := by
  decide

/-- A second stored admin, for exhibiting the init count report. -/
def secondAdmin : Admin :=
  ⟨2, "second@breastcancer.com", bcryptHash "pw2" 12, "Second"⟩

/-- C7 counterexample to the claim as stated: with two admins present,
initialize reports `count = 1` (the length of its `LIMIT 1` probe), not
the existing count 2. -/
theorem c7_claim_counterexample :
    (initAdmin [sampleAdmin, secondAdmin] "e@x.com" "pw" 3).2
      = .alreadyPresent "Admin already exists" 1
    ∧ [sampleAdmin, secondAdmin].length = 2 :=
  ⟨rfl, rfl⟩

/-- C7 (amended): initialize is idempotent — if any admin row exists it
changes no state and reports a count of 1 (the size of its `LIMIT 1`
probe, not the actual count); if no admin exists it creates exactly one
admin from the configured default email/password with the password stored
as a bcrypt hash at cost factor 12 (never the plaintext string), and
returns the plaintext temporary password in that one response. -/
theorem c7_init_idempotent (db : List Admin) (e p : String) (newId : Nat) :
    (db ≠ [] →
      (initAdmin db e p newId).1 = db
      ∧ (initAdmin db e p newId).2 = .alreadyPresent "Admin already exists" 1)
    ∧ (db = [] →
      (initAdmin db e p newId).1
        = [⟨newId, e, bcryptHash p 12, "Administrator"⟩]
      ∧ (initAdmin db e p newId).2 = .created newId e p) := by
  constructor
  · intro h
    cases db with
    | nil => exact absurd rfl h
    | cons a rest => exact ⟨rfl, rfl⟩
  · intro h
    subst h
    exact ⟨rfl, rfl⟩

theorem c7_init_idempotent_witness :
    ((sampleAdmin :: []) ≠ [])
    ∧ (initAdmin [sampleAdmin] "admin@breastcancer.com" "admin123" 2).1
        = [sampleAdmin]
    ∧ (initAdmin [sampleAdmin] "admin@breastcancer.com" "admin123" 2).2
        = .alreadyPresent "Admin already exists" 1 :=
  ⟨by decide,
    ((c7_init_idempotent [sampleAdmin] "admin@breastcancer.com" "admin123"
      2).1 (by decide)).1,
    ((c7_init_idempotent [sampleAdmin] "admin@breastcancer.com" "admin123"
      2).1 (by decide)).2⟩

/-- C8: search answers 400 when the query string is missing (or empty);
when a non-empty query matches no published material and no published
video, the response is `success:true` with empty materials and videos
lists, and its pagination object is exactly `{page, limit}` — the
`SearchPagination` type carries no total and no pages field. -/
theorem c8_search_contract (dbM : List Material) (dbV : List Video)
    (q ty : Option String) (category : Option Nat) (page limit : Nat) :
    ((q = none ∨ q = some "") →
      search dbM dbV q ty category page limit
        = (.badRequest ⟨false, "Search query is required"⟩, 0))
    ∧ (∀ s, q = some s → s ≠ "" →
        dbM.filter (searchMatPred s category) = [] →
        dbV.filter (searchVidPred s category) = [] →
        (search dbM dbV q ty category page limit).1
          = .ok ⟨true, ⟨[], []⟩, s, ⟨page, limit⟩⟩) := by
  constructor
  · intro h
    rcases h with h | h <;> subst h <;> simp [search, jsFalsy]
  · intro s hq hs hfm hfv
    subst hq
    have hs' : (s == "") = false := beq_eq_false_iff_ne.mpr hs
    simp [search, jsFalsy, hs', hfm, hfv, sortMaterialsDesc, sortVideosDesc,
      sortBy, pageSlice]

/-- A published material that does not mention "cancer", for instantiating
the search theorem on the spec's no-match scenario. -/
def helloMaterial : Material :=
  { id := 1, title := "hello", content := "world", author := some "Alice"
    category_id := none, image := none, status := "published"
    created_at := 1 }

theorem c8_search_contract_witness :
    "cancer" ≠ ""
    ∧ [helloMaterial].filter (searchMatPred "cancer" none) = []
    ∧ ([] : List Video).filter (searchVidPred "cancer" none) = []
    ∧ (search [helloMaterial] [] (some "cancer") (some "videos") none 1 10).1
        = .ok ⟨true, ⟨[], []⟩, "cancer", ⟨1, 10⟩⟩ :=
  ⟨by decide, by decide, by decide,
    (c8_search_contract [helloMaterial] [] (some "cancer") (some "videos")
      none 1 10).2 "cancer" rfl (by decide) (by decide) (by decide)⟩

/-- C9: each admin delete (category, material, video) responds with its
success message for every id — including ids matching no row, with no
existence check — and the resulting table holds exactly the previous rows
whose id differs (for categories, referencing materials and videos survive
with their category reference nulled by the FK, not deleted). -/
theorem c9_delete_no_existence_check (db : Db) (dbM : List Material)
    (dbV : List Video) (id : Nat) :
    (deleteMaterial dbM id).2 = "Material deleted successfully"
    ∧ (deleteVideo dbV id).2 = "Video deleted successfully"
    ∧ (deleteCategory db id).2 = "Category deleted successfully"
    ∧ (∀ m, m ∈ (deleteMaterial dbM id).1 ↔ (m ∈ dbM ∧ m.id ≠ id))
    ∧ (∀ v, v ∈ (deleteVideo dbV id).1 ↔ (v ∈ dbV ∧ v.id ≠ id))
    ∧ (∀ c, c ∈ (deleteCategory db id).1.categories
        ↔ (c ∈ db.categories ∧ c.id ≠ id))
    ∧ (deleteCategory db id).1.materials.length = db.materials.length
    ∧ (deleteCategory db id).1.videos.length = db.videos.length := by
  refine ⟨rfl, rfl, rfl, ?_, ?_, ?_, ?_, ?_⟩
  · intro m
    simp [deleteMaterial, List.mem_filter]
  · intro v
    simp [deleteVideo, List.mem_filter]
  · intro c
    simp [deleteCategory, List.mem_filter]
  · simp [deleteCategory]
  · simp [deleteCategory]

/-- A published material matching the query "cancer", for exhibiting the
behaviour of the search type guard on an empty-string `type`. -/
def cancerMaterial : Material :=
  { id := 1, title := "Cancer stages", content := "about cancer"
    author := none, category_id := none, image := none
    status := "published", created_at := 1 }

/-- C10 counterexample to the claim as stated: `type = ''` is present and
equal to neither 'materials' nor 'videos', yet it is falsy, so `!type`
holds, both branches run (two store queries execute) and matching rows are
returned rather than `{materials:[], videos:[]}`. -/
theorem c10_claim_counterexample :
    (search [cancerMaterial] [] (some "cancer") (some "") none 1 10).2 = 2
    ∧ (search [cancerMaterial] [] (some "cancer") (some "") none 1 10).1
        = .ok ⟨true, ⟨[cancerMaterial], []⟩, "cancer", ⟨1, 10⟩⟩ := by
  refine ⟨rfl, by decide⟩

/-- C10 (amended): for every search request with a non-empty query whose
`type` parameter is present, non-empty, and equal to neither 'materials'
nor 'videos', both content branches are skipped, so the response is
`success:true` with `{materials:[], videos:[]}` regardless of database
contents, and no store query is executed (the executed-query count is 0). -/
theorem c10_search_type_guard (dbM : List Material) (dbV : List Video)
    (s t : String) (category : Option Nat) (page limit : Nat)
    (hs : s ≠ "") (ht0 : t ≠ "") (htm : t ≠ "materials")
    (htv : t ≠ "videos") :
    search dbM dbV (some s) (some t) category page limit
      = (.ok ⟨true, ⟨[], []⟩, s, ⟨page, limit⟩⟩, 0) := by
  have hs' : (s == "") = false := beq_eq_false_iff_ne.mpr hs
  have ht0' : (t == "") = false := beq_eq_false_iff_ne.mpr ht0
  have htm' : (some t == some "materials") = false := by
    simp [htm]
  have htv' : (some t == some "videos") = false := by
    simp [htv]
  simp [search, jsFalsy, hs', ht0', htm', htv']

theorem c10_search_type_guard_witness :
    "cancer" ≠ "" ∧ "everything" ≠ "" ∧ "everything" ≠ "materials"
    ∧ "everything" ≠ "videos"
    ∧ search [cancerMaterial] [] (some "cancer") (some "everything")
        none 1 10
      = (.ok ⟨true, ⟨[], []⟩, "cancer", ⟨1, 10⟩⟩, 0) :=
  ⟨by decide, by decide, by decide, by decide,
    c10_search_type_guard [cancerMaterial] [] "cancer" "everything" none 1 10
      (by decide) (by decide) (by decide) (by decide)⟩
